import Mathlib

/-!
Shallow embedding of the build orchestrator in `setup.py` of the `caer`
repository, together with theorems settling the specification claims.

The embedding models:
- the interpreter version gate (`is_right_py_version`, lines 58-74);
- the configuration loading and required-key validation (lines 87-113);
- the static extension descriptor table (`EXTENSIONS` / `EXT_MODULES`,
  lines 117-133);
- the meta module writer (`write_meta` / `META_PY_TEXT` /
  `get_contributors_list`, lines 146-183);
- the source generator invoker (`generate_cython`, lines 198-207);
- the toolchain configuration hook (`copt` / `build_extension_class`,
  lines 210-221);
- the orchestrating `setup_package` / module execution (lines 228-284),
  as a function from an environment (interpreter version, config contents,
  file contents, subprocess exit code, backend outcome) to a final result,
  an event trace, and the resulting file system.

File contents are modelled as explicit values; the external subprocess is
modelled by its exit code only, which is all `subprocess.call` returns.
-/

/-- Python `str.strip()` whitespace predicate (space, tab, newline,
carriage return, vertical tab, form feed). -/
def isPySpace (c : Char) : Bool :=
  c = ' ' || c = '\t' || c = '\n' || c = '\r' || c = '\x0b' || c = '\x0c'

/-- Python `str.strip()`: drop leading and trailing whitespace. -/
def pyStrip (s : String) : String :=
  String.mk (((s.data.dropWhile isPySpace).reverse.dropWhile isPySpace).reverse)

/-- Python `str.split(sep)` for a single-character separator, on char lists:
splitting the empty string yields one empty field. -/
def splitChar (sep : Char) : List Char → List (List Char)
  | [] => [[]]
  | c :: rest =>
    let r := splitChar sep rest
    if c = sep then [] :: r else (c :: r.headD []) :: r.tail

/-- Python `s.split('\n')`. -/
def pySplitNewline (s : String) : List String :=
  (splitChar '\n' s.data).map String.mk

/-- Python `s.split(', ')` (the two-character separator used for the
`keywords` and `pip_requirements` settings), on char lists. -/
def splitCommaSpace : List Char → List (List Char)
  | [] => [[]]
  | [c] => [[c]]
  | a :: b :: rest =>
    if a = ',' ∧ b = ' ' then [] :: splitCommaSpace rest
    else
      let r := splitCommaSpace (b :: rest)
      (a :: r.headD []) :: r.tail

/-- Python `s.split(', ')`. -/
def pySplitCommaSpace (s : String) : List String :=
  (splitCommaSpace s.data).map String.mk

/-- Python tuple `<` comparison restricted to integer tuples (lexicographic,
a strict prefix is smaller), as used on `sys.version_info` prefixes. -/
def pyTupleLt : List Nat → List Nat → Bool
  | [], [] => false
  | [], _ :: _ => true
  | _ :: _, [] => false
  | a :: as, b :: bs => if a < b then true else if b < a then false else pyTupleLt as bs

/-- Python `str(bool)`. -/
def pyBoolStr (b : Bool) : String := if b then "True" else "False"

/-- Python `str` of a list of strings (as substituted for
`%(contributors)s`): each element in single quotes, comma-separated,
in square brackets. -/
def pyListRepr (l : List String) : String :=
  "[" ++ String.intercalate ", " (l.map (fun s => "\x27" ++ s ++ "\x27")) ++ "]"

-- Constants of setup.py, lines 50-58.

/-- setup.py line 50. -/
def MAJOR : Nat := 1

/-- setup.py line 51. -/
def MINOR : Nat := 3

/-- setup.py line 52. -/
def MICRO : Nat := 3

/-- setup.py line 53. -/
def ISRELEASED : Bool := true

/-- setup.py line 54: `VERSION = f'{MAJOR}.{MINOR}.{MICRO}'`. -/
def VERSION : String := toString MAJOR ++ "." ++ toString MINOR ++ "." ++ toString MICRO

/-- setup.py line 56. -/
def RUN_CYTHON_BUILD : Bool := true

/-- setup.py line 58: `min_version = (3, 6, 1)`. -/
def min_version : List Nat := [3, 6, 1]

/-- setup.py lines 60-71: `is_right_py_version(min_py_version)`, with the
running interpreter's `sys.version_info` passed explicitly. Returns `false`
when the interpreter is a Python 2 (`< (3,)`) or below the minimum
version; `true` otherwise. -/
def is_right_py_version (version_info min_py_version : List Nat) : Bool :=
  if pyTupleLt version_info [3] then false
  else if pyTupleLt version_info min_py_version then false
  else true

-- Configuration model: a config source is two sections of key=value pairs.

/-- A parsed `setup.cfg`: the `[metadata]` and `[options]` sections as
ordered key/value lists. -/
structure Config where
  metadata : List (String × String)
  options : List (String × String)

/-- Key lookup in a key/value list (first binding wins, `None` when absent). -/
def lookupKey {α : Type} (sec : List (String × α)) (k : String) : Option α :=
  (sec.find? (fun p => p.1 = k)).map (fun p => p.2)

/-- Python `k in cfg`. -/
def hasKey (sec : List (String × String)) (k : String) : Bool :=
  (lookupKey sec k).isSome

/-- setup.py line 92: `cfg_keys = 'description keywords author author_email contributors'.split()`. -/
def cfg_keys : List String :=
  ["description", "keywords", "author", "author_email", "contributors"]

/-- setup.py line 93: the thirteen required keys. -/
def expected : List String :=
  cfg_keys ++ ["name", "user", "git_branch", "license", "status", "audience",
               "language", "dev_language"]

/-- setup.py line 94: `for i in expected: assert i in cfg, f'Missing expected setting: {i}'`.
Fails on the first key of `keys` absent from `cfg`, with the assert's
message. -/
def checkExpected (cfg : List (String × String)) : List String → Except String Unit
  | [] => Except.ok ()
  | k :: rest =>
    if hasKey cfg k then checkExpected cfg rest
    else Except.error ("Missing expected setting: " ++ k)

/-- Python `cfg[k]`: raises `KeyError` when the key is absent. -/
def getItem (sec : List (String × String)) (k : String) : Except String String :=
  match lookupKey sec k with
  | some v => Except.ok v
  | none => Except.error ("KeyError: " ++ k)

/-- setup.py line 112: `CLASSIFIERS = [i for i in cfg['classifiers'].split('\n')][1:]`,
as a function of the configured `classifiers` value. -/
def CLASSIFIERS_of (v : String) : List String :=
  (pySplitNewline v).drop 1

/-- The setup variables extracted from the config (setup.py lines 99-113). -/
structure SetupVars where
  NAME : String
  AUTHOR : String
  AUTHOR_EMAIL : String
  AUTHOR_LONG : String
  LICENSE : String
  URL : String
  DOWNLOAD_URL : String
  DESCRIPTION : String
  LONG_DESCRIPTION : String
  KEYWORDS : List String
  REQUIREMENTS : List String
  CLASSIFIERS : List String
  PYTHON_REQUIRES : String

/-- setup.py lines 92-113: validates the thirteen required keys (the assert
loop of line 94), then extracts the setup variables in source order; any
access to an absent key raises (`KeyError`), and line 109 reads the
`LONG_DESCRIPTION.md` file (absent file raises). -/
def loadConfig (c : Config) (long_description_file : Option String) :
    Except String SetupVars := do
  let cfg := c.metadata
  let opt := c.options
  checkExpected cfg expected
  let name ← getItem cfg "name"
  let author ← getItem cfg "author"
  let author_email ← getItem cfg "author_email"
  let license ← getItem cfg "license"
  let url ← getItem cfg "git_url"
  let download_url ← getItem cfg "download_url"
  let description ← getItem cfg "description"
  let long_description ←
    match long_description_file with
    | some t => Except.ok t
    | none => Except.error "FileNotFoundError: LONG_DESCRIPTION.md"
  let keywords ← getItem cfg "keywords"
  let pip_requirements ← getItem opt "pip_requirements"
  let classifiers ← getItem cfg "classifiers"
  let min_python ← getItem opt "min_python"
  Except.ok
    { NAME := name
      AUTHOR := author
      AUTHOR_EMAIL := author_email
      AUTHOR_LONG := author ++ " <" ++ author_email ++ ">"
      LICENSE := license
      URL := url
      DOWNLOAD_URL := download_url
      DESCRIPTION := description
      LONG_DESCRIPTION := long_description
      KEYWORDS := pySplitCommaSpace keywords
      REQUIREMENTS := pySplitCommaSpace pip_requirements
      CLASSIFIERS := CLASSIFIERS_of classifiers
      PYTHON_REQUIRES := ">=" ++ min_python }

-- Extension descriptors (setup.py lines 117-133).

/-- A native extension descriptor (the fields of a `setuptools.Extension`
used by this build): logical name, source files, include directories and
extra compile arguments. -/
structure Extension where
  name : String
  sources : List String
  include_dirs : List String
  extra_compile_args : List String
deriving DecidableEq

/-- Modelled from the spec: `np.get_include()` (setup.py line 133), the
numeric-array runtime's header location, an opaque external path. -/
def np_get_include : String := "<numpy include dir>"

/-- setup.py lines 117-132: the static table mapping logical native-module
names to source file lists. -/
def EXTENSIONS : List (String × List String) :=
  [("caer.cconvex", ["caer/cconvex.cpp"]),
   ("caer.cconvolve", ["caer/cconvolve.cpp", "caer/cfilters.cpp"]),
   ("caer.cdistance", ["caer/cdistance.cpp"]),
   ("caer.cmorph", ["caer/cmorph.cpp", "caer/cfilters.cpp"]),
   ("caer.ndi.cndi",
    ["caer/ndi/cndimage.c", "caer/ndi/cndfilters.c", "caer/ndi/cndfourier.c",
     "caer/ndi/cndinterpolation.c", "caer/ndi/cndmeasure.c",
     "caer/ndi/cndmorphology.c", "caer/ndi/cndsplines.c",
     "caer/ndi/cndsupport.c"])]

/-- setup.py line 133: one `Extension` per table entry, in table order,
each with the numpy include directory; `extra_compile_args` defaults to
the empty list in `distutils.extension.Extension`. -/
def EXT_MODULES : List Extension :=
  EXTENSIONS.map (fun kv =>
    { name := kv.1, sources := kv.2, include_dirs := [np_get_include],
      extra_compile_args := [] })

-- Meta module writer (setup.py lines 146-183).

/-- setup.py lines 158-165: `get_contributors_list` reads the CONTRIBUTORS
file, iterating its lines, stripping each line and appending the (possibly
empty) result; the file is given as its list of lines. -/
def get_contributors_list (lines : List String) : List String :=
  lines.foldl (fun contr line => contr ++ [pyStrip line]) []

/-- setup.py lines 146-155 and 177-181: the rendered `_meta.py` text,
`META_PY_TEXT % {...}` with the five substitutions already stringified. -/
def META_render (author version full_version isrelease contributors : String) :
    String :=
  "\n# This file is automatically generated during the generation of setup.py\n"
  ++ "# Copyright 2020, Caer\n"
  ++ "author = \x27" ++ author ++ "\x27\n"
  ++ "version = \x27" ++ version ++ "\x27\n"
  ++ "full_version = \x27" ++ full_version ++ "\x27\n"
  ++ "release = " ++ isrelease ++ "\n"
  ++ "contributors = " ++ contributors ++ "\n"

/-- The files touched by the pipeline: the CONTRIBUTORS file (as its list
of lines, `none` when absent) and the generated `caer/_meta.py` (as its
content, `none` when absent). -/
structure FileSystem where
  contributors_file : Option (List String)
  meta_file : Option String
deriving DecidableEq

/-- setup.py lines 168-183: `write_meta`. Computes `FULL_VERSION = VERSION`,
reads the contributors list (line 172) — if the CONTRIBUTORS file is
missing this raises `FileNotFoundError` before the output file is opened —
then opens `caer/_meta.py` for writing (line 174, truncating) and writes
the rendered text. Returns the resulting file system and the raised error,
if any. -/
def write_meta (author_long : String) (fs : FileSystem) :
    FileSystem × Option String :=
  match fs.contributors_file with
  | none => (fs, some "FileNotFoundError: CONTRIBUTORS")
  | some lines =>
    let contributors := get_contributors_list lines
    ({ fs with
        meta_file := some (META_render author_long VERSION VERSION
          (pyBoolStr ISRELEASED) (pyListRepr contributors)) },
     none)

-- Source generator invoker (setup.py lines 198-207).

/-- setup.py lines 198-207: `generate_cython` runs the cythonize tool as a
subprocess and observes only its exit code (`subprocess.call` returns the
return code; stdout/stderr are inherited, not captured). A non-zero exit
code raises `RuntimeError('[ERROR] Running cythonize failed!')`; zero
returns normally. -/
def generate_cython (exit_code : Int) : Except String Unit :=
  if exit_code ≠ 0 then Except.error "[ERROR] Running cythonize failed!"
  else Except.ok ()

-- Toolchain configuration hook (setup.py lines 210-221).

/-- setup.py lines 210-213: the compiler-identity → extra-flags table. -/
def copt : List (String × List String) :=
  [("msvc", ["/EHsc"]), ("intelw", ["/EHsc"])]

/-- setup.py lines 215-221: `build_extension_class.build_extensions`. If the
detected compiler type is in `copt`, every extension's
`extra_compile_args` is set (overwritten) to that entry's flag list;
otherwise the extensions are left unmodified. The base class then
compiles; only the extension transformation is modelled. -/
def build_extensions (compiler_type : String) (extensions : List Extension) :
    List Extension :=
  match lookupKey copt compiler_type with
  | some flags => extensions.map (fun e => { e with extra_compile_args := flags })
  | none => extensions

-- The orchestrator: module execution and setup_package (lines 47-284).

/-- Observable side-effecting events of a run of `python setup.py`. -/
inductive Ev
  | descriptorsBuilt (n : Nat)
  | metaWritten
  | generateInvoked
  | setupInvoked
deriving DecidableEq

/-- Final outcome of a run: normal completion, an uncaught exception
(`failed`), or `sys.exit` with a code. -/
inductive BuildResult
  | done
  | failed (msg : String)
  | exited (code : Int)
deriving DecidableEq

/-- The environment of one run of `python setup.py`: the interpreter
version, the parsed `setup.cfg`, the contents of the files read, the exit
code the cythonize subprocess would return, and whether the delegated
`setup()` backend call succeeds. -/
structure Env where
  version_info : List Nat
  config : Config
  long_description_file : Option String
  contributors_file : Option (List String)
  meta_file : Option String
  cython_exit : Int
  backend_ok : Bool

/-- One run of `python setup.py`, in source order: the version gate
(lines 73-74, `sys.exit(-1)` when it fails); config loading and
validation (lines 87-113); construction of `EXT_MODULES` (line 133);
then `setup_package()` (lines 228-277): `write_meta()`, the metadata
dict (referencing `EXT_MODULES`), `generate_cython()` (since
`RUN_CYTHON_BUILD` is true), and finally the delegated `setup(**metadata)`
backend call. Returns the outcome, the event trace in order, and the
final file system. -/
def run_setup_py (env : Env) : BuildResult × List Ev × FileSystem :=
  let fs0 : FileSystem :=
    { contributors_file := env.contributors_file, meta_file := env.meta_file }
  if is_right_py_version env.version_info min_version then
    match loadConfig env.config env.long_description_file with
    | Except.error m => (BuildResult.failed m, [], fs0)
    | Except.ok vars =>
      let tr1 := [Ev.descriptorsBuilt EXT_MODULES.length]
      match write_meta vars.AUTHOR_LONG fs0 with
      | (fs1, some m) => (BuildResult.failed m, tr1, fs1)
      | (fs1, none) =>
        let tr2 := tr1 ++ [Ev.metaWritten]
        let run_build := RUN_CYTHON_BUILD
        if run_build then
          let tr3 := tr2 ++ [Ev.generateInvoked]
          match generate_cython env.cython_exit with
          | Except.error m => (BuildResult.failed m, tr3, fs1)
          | Except.ok _ =>
            let tr4 := tr3 ++ [Ev.setupInvoked]
            if env.backend_ok then (BuildResult.done, tr4, fs1)
            else (BuildResult.failed "BackendFailure", tr4, fs1)
        else
          let tr4 := tr2 ++ [Ev.setupInvoked]
          if env.backend_ok then (BuildResult.done, tr4, fs1)
          else (BuildResult.failed "BackendFailure", tr4, fs1)
  else (BuildResult.exited (-1), [], fs0)

-- Concrete fixtures used by witnesses and counterexamples.

/-- A `[metadata]` section holding every key `setup.py` reads: the thirteen
required keys plus `git_url`, `download_url` and `classifiers`. -/
def sampleMetadataSection : List (String × String) :=
  [("description", "A Computer Vision library"), ("keywords", "computer vision, opencv"),
   ("author", "Jason"), ("author_email", "jason@example.com"),
   ("contributors", "CONTRIBUTORS"), ("name", "caer"), ("user", "jasmcaus"),
   ("git_branch", "master"), ("license", "MIT"), ("status", "4 - Beta"),
   ("audience", "Developers"), ("language", "English"), ("dev_language", "Python"),
   ("git_url", "https://github.com/jasmcaus/caer"),
   ("download_url", "https://pypi.org/project/caer/"),
   ("classifiers", "\nDevelopment Status :: 4 - Beta\nIntended Audience :: Developers")]

/-- An `[options]` section with the two keys `setup.py` reads. -/
def sampleOptionsSection : List (String × String) :=
  [("pip_requirements", "numpy, opencv-contrib-python"), ("min_python", "3.6.1")]

/-- A fully-populated config source. -/
def sampleConfig : Config :=
  { metadata := sampleMetadataSection, options := sampleOptionsSection }

/-- A `[metadata]` section with all thirteen required keys present but
without `git_url` (which line 105 reads unconditionally). -/
def metadataAllRequiredNoGitUrl : List (String × String) :=
  [("description", "A Computer Vision library"), ("keywords", "computer vision, opencv"),
   ("author", "Jason"), ("author_email", "jason@example.com"),
   ("contributors", "CONTRIBUTORS"), ("name", "caer"), ("user", "jasmcaus"),
   ("git_branch", "master"), ("license", "MIT"), ("status", "4 - Beta"),
   ("audience", "Developers"), ("language", "English"), ("dev_language", "Python"),
   ("download_url", "https://pypi.org/project/caer/"),
   ("classifiers", "\nDevelopment Status :: 4 - Beta")]

/-- A `[metadata]` section missing exactly the required key `git_branch`. -/
def metadataMissingGitBranch : List (String × String) :=
  [("description", "A Computer Vision library"), ("keywords", "computer vision, opencv"),
   ("author", "Jason"), ("author_email", "jason@example.com"),
   ("contributors", "CONTRIBUTORS"), ("name", "caer"), ("user", "jasmcaus"),
   ("license", "MIT"), ("status", "4 - Beta"),
   ("audience", "Developers"), ("language", "English"), ("dev_language", "Python"),
   ("git_url", "https://github.com/jasmcaus/caer"),
   ("download_url", "https://pypi.org/project/caer/"),
   ("classifiers", "\nDevelopment Status :: 4 - Beta")]

/-- An environment in which everything is in place but the cythonize
subprocess exits with code 1. -/
def envGenFail : Env :=
  { version_info := [3, 8, 5], config := sampleConfig,
    long_description_file := some "# Caer", contributors_file := some ["Alice", "  ", "Bob"],
    meta_file := some "stale content", cython_exit := 1, backend_ok := true }

/-- An environment running under Python 3.5.0, below the minimum (3, 6, 1). -/
def envLowPython : Env :=
  { version_info := [3, 5, 0], config := sampleConfig,
    long_description_file := some "# Caer", contributors_file := some ["Alice"],
    meta_file := some "stale content", cython_exit := 0, backend_ok := true }

/-- An extension list whose entry carries pre-existing extra compile
arguments, to exercise the toolchain hook concretely. -/
def sampleExtensionsWithArgs : List Extension :=
  [{ name := "caer.cconvex", sources := ["caer/cconvex.cpp"],
     include_dirs := [np_get_include], extra_compile_args := ["-O2"] }]

-- Helper lemmas.

/-- The contributor loop is the map of `pyStrip`, for any accumulator. -/
lemma contributors_foldl_eq (lines : List String) (acc : List String) :
    lines.foldl (fun contr line => contr ++ [pyStrip line]) acc =
      acc ++ lines.map pyStrip := by
  induction lines generalizing acc with
  | nil => simp
  | cons l rest ih => simp [List.foldl, ih]

lemma get_contributors_list_eq_map (lines : List String) :
    get_contributors_list lines = lines.map pyStrip := by
  simpa using contributors_foldl_eq lines []

/-- `splitChar` never returns the empty list. -/
lemma splitChar_ne_nil (sep : Char) (l : List Char) : splitChar sep l ≠ [] := by
  cases l with
  | nil => simp [splitChar]
  | cons c rest => simp only [splitChar]; split <;> simp

lemma pySplitNewline_ne_nil (s : String) : pySplitNewline s ≠ [] := by
  simp [pySplitNewline, splitChar_ne_nil]

-- C4.

/-- C4: the contributor-list reader returns one string per input line, in
file order, each line stripped of surrounding whitespace, and does not
filter out blank lines; in particular `["Alice", "  ", "Bob"]` yields
`["Alice", "", "Bob"]`. -/
theorem c4_contributors_list :
    (∀ lines : List String, get_contributors_list lines = lines.map pyStrip) ∧
    (∀ lines : List String, (get_contributors_list lines).length = lines.length) ∧
    get_contributors_list ["Alice", "  ", "Bob"] = ["Alice", "", "Bob"] := by
  refine ⟨get_contributors_list_eq_map, ?_, by decide⟩
  intro lines
  simp [get_contributors_list_eq_map]

-- C6.

/-- C6: the toolchain hook with compiler identity "msvc" sets every
extension's extra compile arguments to exactly `["/EHsc"]`, overwriting any
prior value; every compiler identity absent from the `copt` flag table —
in particular "gcc" — leaves the extension list unmodified. The hook is a
total function: it has no failure path. -/
theorem c6_toolchain_config :
    (∀ exts : List Extension,
      build_extensions "msvc" exts =
        exts.map (fun e => { e with extra_compile_args := ["/EHsc"] })) ∧
    (∀ c : String, lookupKey copt c = none →
      ∀ exts : List Extension, build_extensions c exts = exts) ∧
    (∀ exts : List Extension, build_extensions "gcc" exts = exts) := by
  refine ⟨fun exts => rfl, ?_, fun exts => rfl⟩
  intro c hc exts
  simp [build_extensions, hc]

/-- C6 witness: the hook at the absent identity "gcc" on a concrete
extension list with pre-existing extra compile arguments. -/
theorem c6_witness :
    build_extensions "gcc" sampleExtensionsWithArgs = sampleExtensionsWithArgs :=
  c6_toolchain_config.2.1 "gcc" (by decide) sampleExtensionsWithArgs

-- C9.

/-- C9: `write_meta` reads the contributors file (line 172) before opening
the output file (line 174); when the contributors resource is missing the
read raises and the previously existing meta module file is left untouched. -/
theorem c9_contributors_read_before_meta_open :
    ∀ (author_long : String) (prior : Option String),
      write_meta author_long { contributors_file := none, meta_file := prior } =
        ({ contributors_file := none, meta_file := prior },
         some "FileNotFoundError: CONTRIBUTORS") := by
  intro author_long prior
  rfl

-- C5.

/-- C5: meta module writing is idempotent: for fixed inputs the rendered
content is one fixed byte string, whatever the prior content of the target
file (which is truncated), and writing a second time reproduces it
byte-identically. -/
theorem c5_write_meta_idempotent :
    ∀ (author_long : String) (lines : List String), ∃ content : String,
      (∀ prior : Option String,
        write_meta author_long { contributors_file := some lines, meta_file := prior } =
          ({ contributors_file := some lines, meta_file := some content }, none)) ∧
      write_meta author_long { contributors_file := some lines, meta_file := some content } =
        ({ contributors_file := some lines, meta_file := some content }, none) := by
  intro author_long lines
  exact ⟨META_render author_long VERSION VERSION (pyBoolStr ISRELEASED)
      (pyListRepr (get_contributors_list lines)),
    fun prior => rfl, rfl⟩

-- C7.

set_option maxRecDepth 8000 in
/-- C7: with version 1.3.3 and release flag true, the generated meta module
reports `version = '1.3.3'`, `full_version = '1.3.3'` and `release = True`;
`write_meta` substitutes the same `VERSION` string for both the version and
the full_version slots, so full_version always equals version. -/
theorem c7_meta_versions :
    VERSION = "1.3.3" ∧ ISRELEASED = true ∧
    (∀ (author_long : String) (lines : List String) (prior : Option String),
      (write_meta author_long
          { contributors_file := some lines, meta_file := prior }).1.meta_file =
        some (META_render author_long VERSION VERSION (pyBoolStr ISRELEASED)
          (pyListRepr (get_contributors_list lines)))) ∧
    (write_meta "Jason <jason@example.com>"
        { contributors_file := some ["Alice"], meta_file := none }).1.meta_file =
      some ("\n# This file is automatically generated during the generation of setup.py\n"
        ++ "# Copyright 2020, Caer\n"
        ++ "author = \x27Jason <jason@example.com>\x27\n"
        ++ "version = \x271.3.3\x27\n"
        ++ "full_version = \x271.3.3\x27\n"
        ++ "release = True\n"
        ++ "contributors = [\x27Alice\x27]\n") := by
  refine ⟨rfl, rfl, fun a lines prior => rfl, by decide⟩

-- C2.

/-- C2 counterexample: the error raised for a failing generator run is the
same fixed value for exit codes 1 and 2, so it cannot carry the external
process's exit code; the raised message is the constant
`[ERROR] Running cythonize failed!`. -/
theorem c2_counterexample :
    generate_cython 1 = generate_cython 2 ∧
    generate_cython 1 = Except.error "[ERROR] Running cythonize failed!" := by
  exact ⟨rfl, rfl⟩

/-- C2 (amended): the generator invoker maps every non-zero exit status to
a fatal error with the fixed message `[ERROR] Running cythonize failed!`
(which does not carry the exit code), and a zero exit status is the only
success signal; only the exit code is consulted. -/
theorem c2_generation_error :
    ∀ p : Int,
      (p ≠ 0 → generate_cython p = Except.error "[ERROR] Running cythonize failed!") ∧
      (generate_cython p = Except.ok () ↔ p = 0) := by
  intro p
  refine ⟨fun h => by simp [generate_cython, h], ?_, fun h => by simp [generate_cython, h]⟩
  intro h
  by_contra hne
  simp [generate_cython, hne] at h

/-- C2 witness: the amended theorem at exit code 1. -/
theorem c2_witness :
    generate_cython 1 = Except.error "[ERROR] Running cythonize failed!" :=
  (c2_generation_error 1).1 (by decide)

-- C10.

/-- C10 counterexample: with configured classifiers value `"A\nA"` the
first line `"A"` does appear in the resulting classifiers list. -/
theorem c10_counterexample :
    (pySplitNewline "A\nA").headD "" = "A" ∧ "A" ∈ CLASSIFIERS_of "A\nA" := by
  decide

/-- C10 (amended): the classifiers list is the tail of splitting the
configured value on newlines: it has one element fewer than the split, and
when the split is `hd :: tl` the result is exactly `tl`; hence the first
line does not appear in the result unless it recurs verbatim in a later
line. -/
theorem c10_classifiers_tail :
    ∀ v : String,
      (pySplitNewline v).length = (CLASSIFIERS_of v).length + 1 ∧
      (∀ hd tl, pySplitNewline v = hd :: tl →
        CLASSIFIERS_of v = tl ∧ (hd ∉ tl → hd ∉ CLASSIFIERS_of v)) := by
  intro v
  constructor
  · cases h : pySplitNewline v with
    | nil => exact absurd h (pySplitNewline_ne_nil v)
    | cons hd tl => simp [CLASSIFIERS_of, h]
  · intro hd tl h
    refine ⟨by simp [CLASSIFIERS_of, h], fun hn => by simpa [CLASSIFIERS_of, h] using hn⟩

/-- C10 witness: the amended theorem at the classifiers value `"A\nB"`. -/
theorem c10_witness :
    CLASSIFIERS_of "A\nB" = ["B"] ∧ "A" ∉ CLASSIFIERS_of "A\nB" := by
  have h := (c10_classifiers_tail "A\nB").2 "A" ["B"] (by decide)
  exact ⟨h.1, h.2 (by decide)⟩

-- C8 helpers.

lemma pyTupleLt_three_of_lt_min (vi : List Nat)
    (h : pyTupleLt vi [3] = true) : pyTupleLt vi [3, 6, 1] = true := by
  cases vi with
  | nil => rfl
  | cons a as =>
    simp only [pyTupleLt] at h ⊢
    rcases Nat.lt_trichotomy a 3 with hlt | heq | hgt
    · simp [hlt]
    · subst heq
      simp at h
      cases as <;> simp [pyTupleLt] at h
    · simp [Nat.lt_asymm hgt, hgt] at h

/-- C8: when the interpreter's version is below the minimum supported
version the program exits with code -1 before anything of the pipeline
runs (empty trace, files untouched); when it meets the minimum the gate
passes and the run never ends in `sys.exit(-1)`. -/
theorem c8_version_gate :
    ∀ env : Env,
      (pyTupleLt env.version_info min_version = true →
        run_setup_py env =
          (BuildResult.exited (-1), [],
           { contributors_file := env.contributors_file, meta_file := env.meta_file })) ∧
      (pyTupleLt env.version_info min_version = false →
        is_right_py_version env.version_info min_version = true ∧
        ∀ c : Int, (run_setup_py env).1 ≠ BuildResult.exited c) := by
  intro env
  constructor
  · intro h
    have hg : is_right_py_version env.version_info min_version = false := by
      simp [is_right_py_version, h]
    simp [run_setup_py, hg]
  · intro h
    have h3 : pyTupleLt env.version_info [3] = false := by
      by_contra hc
      have := pyTupleLt_three_of_lt_min env.version_info (by simpa using hc)
      rw [show ([3, 6, 1] : List Nat) = min_version from rfl] at this
      simp [this] at h
    have hg : is_right_py_version env.version_info min_version = true := by
      simp [is_right_py_version, h3, h]
    refine ⟨hg, ?_⟩
    intro c
    simp only [run_setup_py, hg, if_true]
    split
    · simp
    · split
      · simp
      · split
        · split
          · simp
          · split <;> simp
        · split <;> simp

/-- C8 witness: under Python 3.5.0 the run exits with code -1 and no
pipeline stage runs; under Python 3.8.5 the gate passes. -/
theorem c8_witness :
    run_setup_py envLowPython =
      (BuildResult.exited (-1), [],
       { contributors_file := some ["Alice"], meta_file := some "stale content" }) ∧
    is_right_py_version [3, 8, 5] min_version = true := by
  constructor
  · exact (c8_version_gate envLowPython).1 (by decide)
  · exact ((c8_version_gate envGenFail).2 (by decide)).1

-- C3 helpers.

/-- The assert loop fails with the message naming `k` when `k` is the only
key of `keys` absent from the section. -/
lemma checkExpected_first_missing (cfg : List (String × String)) (k : String) :
    ∀ keys : List String, k ∈ keys → hasKey cfg k = false →
      (∀ k' ∈ keys, k' ≠ k → hasKey cfg k' = true) →
      checkExpected cfg keys = Except.error ("Missing expected setting: " ++ k) := by
  intro keys
  induction keys with
  | nil => intro h; exact absurd h (List.not_mem_nil k)
  | cons h t ih =>
    intro hmem hmiss hothers
    by_cases hk : h = k
    · subst hk
      simp [checkExpected, hmiss]
    · have hh : hasKey cfg h = true := hothers h (List.mem_cons_self h t) hk
      simp only [checkExpected, hh, if_true]
      refine ih ?_ hmiss ?_
      · rcases List.mem_cons.mp hmem with heq | hmt
        · exact absurd heq.symm hk
        · exact hmt
      · intro k' hk' hne
        exact hothers k' (List.mem_cons_of_mem h hk') hne

/-- The assert loop passes when every key is present. -/
lemma checkExpected_all_present (cfg : List (String × String)) :
    ∀ keys : List String, (∀ k ∈ keys, hasKey cfg k = true) →
      checkExpected cfg keys = Except.ok () := by
  intro keys
  induction keys with
  | nil => intro _; rfl
  | cons h t ih =>
    intro hall
    have hh : hasKey cfg h = true := hall h (List.mem_cons_self h t)
    simp only [checkExpected, hh, if_true]
    exact ih (fun k hk => hall k (List.mem_cons_of_mem h hk))

/-- A failing assert loop propagates as the result of `loadConfig`. -/
lemma loadConfig_of_checkExpected_error (c : Config) (ld : Option String)
    (m : String) (h : checkExpected c.metadata expected = Except.error m) :
    loadConfig c ld = Except.error m := by
  simp only [loadConfig, h]
  rfl

/-- With the assert loop passing and every accessed key bound, `loadConfig`
returns the record assembled from the bound values (setup.py lines 99-113). -/
lemma loadConfig_ok (c : Config) (ld : String)
    (vname vauthor vemail vlicense vurl vdl vdesc vkw vpip vcls vmin : String)
    (hchk : checkExpected c.metadata expected = Except.ok ())
    (hname : lookupKey c.metadata "name" = some vname)
    (hauthor : lookupKey c.metadata "author" = some vauthor)
    (hemail : lookupKey c.metadata "author_email" = some vemail)
    (hlicense : lookupKey c.metadata "license" = some vlicense)
    (hurl : lookupKey c.metadata "git_url" = some vurl)
    (hdl : lookupKey c.metadata "download_url" = some vdl)
    (hdesc : lookupKey c.metadata "description" = some vdesc)
    (hkw : lookupKey c.metadata "keywords" = some vkw)
    (hpip : lookupKey c.options "pip_requirements" = some vpip)
    (hcls : lookupKey c.metadata "classifiers" = some vcls)
    (hmin : lookupKey c.options "min_python" = some vmin) :
    loadConfig c (some ld) = Except.ok
      { NAME := vname, AUTHOR := vauthor, AUTHOR_EMAIL := vemail,
        AUTHOR_LONG := vauthor ++ " <" ++ vemail ++ ">", LICENSE := vlicense,
        URL := vurl, DOWNLOAD_URL := vdl, DESCRIPTION := vdesc,
        LONG_DESCRIPTION := ld, KEYWORDS := pySplitCommaSpace vkw,
        REQUIREMENTS := pySplitCommaSpace vpip, CLASSIFIERS := CLASSIFIERS_of vcls,
        PYTHON_REQUIRES := ">=" ++ vmin } := by
  simp only [loadConfig, hchk, getItem, hname, hauthor, hemail, hlicense, hurl,
    hdl, hdesc, hkw, hpip, hcls, hmin]
  rfl

/-- C3 counterexample: a config source holding all thirteen required keys
whose loading nevertheless fails, because line 105 reads the key `git_url`,
which is not among the required keys. -/
theorem c3_counterexample :
    (expected.all (fun k => hasKey metadataAllRequiredNoGitUrl k)) = true ∧
    loadConfig { metadata := metadataAllRequiredNoGitUrl, options := sampleOptionsSection }
        (some "# Caer") =
      Except.error "KeyError: git_url" := by
  constructor
  · decide
  · rfl

/-- C3 (amended): for a config source in which exactly one of the thirteen
required keys is absent, loading fails with the assert message naming
exactly that key, and when loading fails nothing else has happened (empty
event trace, meta module untouched); the required-key check passes whenever
all thirteen keys are present, but loading as a whole succeeds only when
the additionally accessed keys (`git_url`, `download_url`, `classifiers`
in `[metadata]`; `pip_requirements`, `min_python` in `[options]`) are also
present. -/
theorem c3_required_keys :
    (∀ (cfg opt : List (String × String)) (ld : Option String) (k : String),
      k ∈ expected → hasKey cfg k = false →
      (∀ k' ∈ expected, k' ≠ k → hasKey cfg k' = true) →
      loadConfig { metadata := cfg, options := opt } ld =
        Except.error ("Missing expected setting: " ++ k)) ∧
    (∀ (env : Env) (m : String),
      is_right_py_version env.version_info min_version = true →
      loadConfig env.config env.long_description_file = Except.error m →
      run_setup_py env =
        (BuildResult.failed m, [],
         { contributors_file := env.contributors_file, meta_file := env.meta_file })) ∧
    (∀ cfg : List (String × String), (∀ k ∈ expected, hasKey cfg k = true) →
      checkExpected cfg expected = Except.ok ()) ∧
    (∀ (c : Config) (ld : String),
      (∀ k ∈ expected, hasKey c.metadata k = true) →
      hasKey c.metadata "git_url" = true → hasKey c.metadata "download_url" = true →
      hasKey c.metadata "classifiers" = true →
      hasKey c.options "pip_requirements" = true →
      hasKey c.options "min_python" = true →
      ∃ vars, loadConfig c (some ld) = Except.ok vars) := by
  refine ⟨?_, ?_, fun cfg => checkExpected_all_present cfg expected, ?_⟩
  · intro cfg opt ld k hmem hmiss hothers
    exact loadConfig_of_checkExpected_error _ ld _
      (checkExpected_first_missing cfg k expected hmem hmiss hothers)
  · intro env m hg herr
    simp [run_setup_py, hg, herr]
  · intro c ld hall hgit hdl hcls hpip hmin
    obtain ⟨vname, hname⟩ := Option.isSome_iff_exists.mp (hall "name" (by decide))
    obtain ⟨vauthor, hauthor⟩ := Option.isSome_iff_exists.mp (hall "author" (by decide))
    obtain ⟨vemail, hemail⟩ := Option.isSome_iff_exists.mp (hall "author_email" (by decide))
    obtain ⟨vlicense, hlicense⟩ := Option.isSome_iff_exists.mp (hall "license" (by decide))
    obtain ⟨vurl, hurl⟩ := Option.isSome_iff_exists.mp hgit
    obtain ⟨vdl, hdl2⟩ := Option.isSome_iff_exists.mp hdl
    obtain ⟨vdesc, hdesc⟩ := Option.isSome_iff_exists.mp (hall "description" (by decide))
    obtain ⟨vkw, hkw⟩ := Option.isSome_iff_exists.mp (hall "keywords" (by decide))
    obtain ⟨vpip, hpip⟩ := Option.isSome_iff_exists.mp hpip
    obtain ⟨vcls, hcls2⟩ := Option.isSome_iff_exists.mp hcls
    obtain ⟨vmin, hmin2⟩ := Option.isSome_iff_exists.mp hmin
    exact ⟨_, loadConfig_ok c ld vname vauthor vemail vlicense vurl vdl vdesc
      vkw vpip vcls vmin (checkExpected_all_present c.metadata expected hall)
      hname hauthor hemail hlicense hurl hdl2 hdesc hkw hpip hcls2 hmin2⟩

/-- C3 witness: the amended theorem at a config missing exactly
`git_branch`, and at the fully-populated sample config. -/
theorem c3_witness :
    loadConfig { metadata := metadataMissingGitBranch, options := sampleOptionsSection }
        (some "# Caer") =
      Except.error "Missing expected setting: git_branch" ∧
    (∃ vars, loadConfig sampleConfig (some "# Caer") = Except.ok vars) := by
  constructor
  · exact c3_required_keys.1 metadataMissingGitBranch sampleOptionsSection
      (some "# Caer") "git_branch" (by decide) (by decide) (by decide)
  · exact c3_required_keys.2.2.2 sampleConfig "# Caer" (by decide) (by decide)
      (by decide) (by decide) (by decide) (by decide)

-- C1.

set_option maxRecDepth 40000 in
/-- C1 counterexample: a run whose generator exits with code 1 does halt
with the generation failure and never invokes the backend `setup()` call,
but its trace already contains the construction of the five extension
descriptors (`EXT_MODULES`, built at module load, line 133, before
`generate_cython` ever runs), so the number of extension descriptors built
is not zero. -/
theorem c1_counterexample :
    (run_setup_py envGenFail).1 =
      BuildResult.failed "[ERROR] Running cythonize failed!" ∧
    Ev.descriptorsBuilt 5 ∈ (run_setup_py envGenFail).2.1 ∧
    Ev.setupInvoked ∉ (run_setup_py envGenFail).2.1 := by
  refine ⟨rfl, ?_, ?_⟩ <;> decide

/-- C1 (amended): for every run in which the generator subprocess exits
non-zero, the backend `setup()` step is never invoked and, whenever the
generation stage was reached, the run halts failed with the generation
error — with the extension descriptors nevertheless already built (they
are constructed eagerly at module load, before generation, so a failing
run has five descriptors built rather than zero); delegation to the
backend only ever happens when generation exits zero. -/
theorem c1_no_delegation_before_generation :
    ∀ env : Env,
      (env.cython_exit ≠ 0 →
        Ev.setupInvoked ∉ (run_setup_py env).2.1 ∧
        (Ev.generateInvoked ∈ (run_setup_py env).2.1 →
          (run_setup_py env).1 =
            BuildResult.failed "[ERROR] Running cythonize failed!" ∧
          Ev.descriptorsBuilt EXT_MODULES.length ∈ (run_setup_py env).2.1)) ∧
      (Ev.setupInvoked ∈ (run_setup_py env).2.1 → env.cython_exit = 0) := by
  intro env
  constructor
  · intro hne
    have hgen : generate_cython env.cython_exit =
        Except.error "[ERROR] Running cythonize failed!" := by
      simp [generate_cython, hne]
    simp only [run_setup_py, RUN_CYTHON_BUILD, if_true, hgen]
    split
    · split
      · simp
      · split
        · simp
        · simp
    · simp
  · intro hsetup
    by_contra h0
    have hgen : generate_cython env.cython_exit =
        Except.error "[ERROR] Running cythonize failed!" := by
      simp [generate_cython, h0]
    simp only [run_setup_py, RUN_CYTHON_BUILD, if_true, hgen] at hsetup
    revert hsetup
    split
    · split
      · simp
      · split
        · simp
        · simp
    · simp

set_option maxRecDepth 40000 in
/-- C1 witness: the amended theorem at the concrete failing-generator
environment. -/
theorem c1_witness :
    Ev.setupInvoked ∉ (run_setup_py envGenFail).2.1 ∧
    (run_setup_py envGenFail).1 =
      BuildResult.failed "[ERROR] Running cythonize failed!" ∧
    Ev.descriptorsBuilt EXT_MODULES.length ∈ (run_setup_py envGenFail).2.1 := by
  have h := (c1_no_delegation_before_generation envGenFail).1 (by decide)
  exact ⟨h.1, h.2 (by decide)⟩
